import Mathlib

/-!
Shallow embedding of the Verkada audit-log client (`get_audit_logs.py`):
the retrying request executor `VerkadaSession.request`, the page
aggregator `VerkadaSession.request_all_pages`, the credential store
`VerkadaAPI._readToken`, the token parse step of `VerkadaAPI._refreshToken`,
and the parameter cleaner `clean_params`.
-/

namespace Verkada

/-- `RETRY_WAIT_TIME = 10` (module constant, seconds). -/
def RETRY_WAIT_TIME : Nat := 10

/-- `MAX_RETRIES = 3` (module constant). -/
def MAX_RETRIES : Nat := 3

/-- `DEFAULT_TOKEN_EXPIRATION_TIME = 25` minutes (module constant). -/
def DEFAULT_TOKEN_EXPIRATION_TIME : Int := 25

/-- `clean_params(params)`: `{k: v for k, v in params.items() if v is not None}`.
A parameter mapping is modelled as an ordered association list whose values
are `Option V` (`none` modelling Python's `None`). -/
def clean_params {V : Type} (params : List (String × Option V)) : List (String × V) :=
  params.filterMap (fun kv => kv.2.map (fun v => (kv.1, v)))

/-- One network attempt as seen by `VerkadaSession.request`: either the
server answers with some HTTP status code, or the attempt raises a
transport exception (`ConnectionError`/`Timeout`), or some other
`RequestException`. -/
inductive Attempt where
  | resp (status : Nat)
  | connErr
  | reqErr
deriving DecidableEq

/-- The kinds of exception the loop stores in `last_exception`. -/
inductive LastExc where
  | connErr
  | reqErr
deriving DecidableEq

/-- How a call to `VerkadaSession.request` ends.
`streamEnded` marks the point where the loop would issue a further network
request beyond the finite attempt stream supplied to the model: the loop is
still running, with the recorded `last_exception`. -/
inductive ReqOutcome where
  | success (status : Nat)
  | authError
  | tokenExpired
  | connectionErrorTransport
  | raisedReqErr
  | connectionErrorGeneric
  | streamEnded (lastExc : Option LastExc)
deriving DecidableEq

/-- Observable result of running the request loop: the outcome, the sequence
of sleeps performed (in order, in seconds), and the value of `retries` at
the moment the loop stopped consuming attempts. -/
structure ReqState where
  outcome : ReqOutcome
  sleeps : List Nat
  retriesLeft : Nat
deriving DecidableEq

/-- Lines 143-152 of `request`: what is raised once `retries` reaches 0,
as a function of `last_exception`. -/
def exhaustOutcome : Option LastExc → ReqOutcome
  | some LastExc.connErr => ReqOutcome.connectionErrorTransport
  | some LastExc.reqErr => ReqOutcome.raisedReqErr
  | none => ReqOutcome.connectionErrorGeneric

/-- The backoff step `retries -= 1; if retries > 0: sleep((max_retries - retries) * RETRY_WAIT_TIME)`,
applied after the decrement (`retries` here is the already-decremented value). -/
def backoffSleeps (maxRetries retries : Nat) (sleeps : List Nat) : List Nat :=
  if 0 < retries then sleeps ++ [(maxRetries - retries) * RETRY_WAIT_TIME] else sleeps

/-- The `while retries > 0` loop of `VerkadaSession.request`, driven by a
finite stream of attempts (one stream element per call to
`self.session.request`).  Status classification follows the source:
2xx returns, 401 raises `VerkadaTokenExpiredError` which the loop's own
handler catches and merely logs (so the iteration changes nothing),
409 raises `VerkadaAuthenticationError` which the final `except Exception`
re-raises, 429 sleeps the fixed wait and consumes a retry, `>= 500` and the
remaining 4xx consume a retry with increasing backoff, transport and other
request exceptions are recorded in `last_exception` and consume a retry,
and any other status (1xx/3xx) falls through every branch leaving the
state untouched. -/
def requestLoop (maxRetries : Nat) (attempts : List Attempt) (retries : Nat)
    (lastExc : Option LastExc) (sleeps : List Nat) : ReqState :=
  if retries = 0 then
    ⟨exhaustOutcome lastExc, sleeps, 0⟩
  else
    match attempts with
    | [] => ⟨ReqOutcome.streamEnded lastExc, sleeps, retries⟩
    | Attempt.resp status :: rest =>
        if 200 ≤ status ∧ status < 300 then
          ⟨ReqOutcome.success status, sleeps, retries⟩
        else if status = 401 then
          requestLoop maxRetries rest retries lastExc sleeps
        else if status = 409 then
          ⟨ReqOutcome.authError, sleeps, retries⟩
        else if status = 429 then
          requestLoop maxRetries rest (retries - 1) lastExc (sleeps ++ [RETRY_WAIT_TIME])
        else if 500 ≤ status then
          requestLoop maxRetries rest (retries - 1) lastExc
            (backoffSleeps maxRetries (retries - 1) sleeps)
        else if 400 ≤ status then
          requestLoop maxRetries rest (retries - 1) lastExc
            (backoffSleeps maxRetries (retries - 1) sleeps)
        else
          requestLoop maxRetries rest retries lastExc sleeps
    | Attempt.connErr :: rest =>
        requestLoop maxRetries rest (retries - 1) (some LastExc.connErr)
          (backoffSleeps maxRetries (retries - 1) sleeps)
    | Attempt.reqErr :: rest =>
        requestLoop maxRetries rest (retries - 1) (some LastExc.reqErr)
          (backoffSleeps maxRetries (retries - 1) sleeps)

/-- `VerkadaSession.request`: the loop started with `retries = self.max_retries`,
no recorded exception and no sleeps performed. -/
def request (attempts : List Attempt) : ReqState :=
  requestLoop MAX_RETRIES attempts MAX_RETRIES none []

/-- The expiration test of `VerkadaAPI._readToken`:
`self.timestamp < int(time.time()) - DEFAULT_TOKEN_EXPIRATION_TIME * 60`. -/
def isExpired (timestamp now : Int) : Bool :=
  timestamp < now - DEFAULT_TOKEN_EXPIRATION_TIME * 60

/-- The state of the persisted record `token.json`: absent, present but not
well-formed JSON, or a well-formed JSON object whose `token` and `timestamp`
fields may each be missing (`.get` returns `None` for a missing field). -/
inductive TokenFile where
  | absent
  | malformed
  | record (token : Option String) (timestamp : Option Int)
deriving DecidableEq

/-- What `VerkadaAPI._readToken` does: `refreshed` models a call to
`self._refreshToken()`, `raised` models an exception propagating to the
caller (`json.JSONDecodeError` from `json.load`, or `TypeError` from
comparing `None < int`), `loaded` models returning with `self.token` and
`self.timestamp` set from the file and no refresh. -/
inductive ReadTokenResult where
  | refreshed
  | raised
  | loaded (token : Option String) (timestamp : Int)
deriving DecidableEq

/-- `VerkadaAPI._readToken`, as a function of the file state and the current
time: a missing file triggers `self._refreshToken()`; malformed JSON makes
`json.load` raise; a missing `timestamp` field makes the `<` comparison
raise `TypeError`; a stale timestamp triggers `self._refreshToken()`;
otherwise the stored fields are loaded. -/
def readToken (file : TokenFile) (now : Int) : ReadTokenResult :=
  match file with
  | TokenFile.absent => ReadTokenResult.refreshed
  | TokenFile.malformed => ReadTokenResult.raised
  | TokenFile.record tok ts =>
    match ts with
    | none => ReadTokenResult.raised
    | some t =>
      if isExpired t now then ReadTokenResult.refreshed
      else ReadTokenResult.loaded tok t

/-- How the token-parsing step of `VerkadaAPI._refreshToken` can fail:
`keyError` models the `KeyError` Python raises on `res.json()['token']`
for a body without that key; `authError` models raising
`VerkadaAuthenticationError` (which this step never does). -/
inductive RefreshErr where
  | keyError
  | authError
deriving DecidableEq

/-- Lookup of a string field in a JSON object modelled as an association
list (first binding wins, as JSON objects have unique keys). -/
def lookupStr (body : List (String × String)) (k : String) : Option String :=
  (body.find? (fun kv => kv.1 == k)).map (fun kv => kv.2)

/-- The parse step `self.token = res.json()['token']` of
`VerkadaAPI._refreshToken`, applied to the JSON body of a successful (2xx)
token-endpoint response: indexing a missing key raises `KeyError`. -/
def refreshTokenParse (body : List (String × String)) : Except RefreshErr String :=
  match lookupStr body "token" with
  | some t => Except.ok t
  | none => Except.error RefreshErr.keyError

/-- One page response body, as consumed by `request_all_pages`: the named
list fields present in the JSON object, and the `next_page_token` value
(`none` modelling JSON `null`). -/
structure Page (α : Type) where
  fields : List (String × List α)
  next_page_token : Option String
deriving DecidableEq

/-- Lookup of a list field in a page body. -/
def lookupField {α : Type} (fields : List (String × List α)) (k : String) :
    Option (List α) :=
  (fields.find? (fun kv => kv.1 == k)).map (fun kv => kv.2)

/-- Python truthiness of the continuation token: `None` and the empty
string are falsy, any other string is truthy. -/
def tokenTruthy : Option String → Bool
  | none => false
  | some s => !(s == "")

/-- The loop `for k in keys: data[k].extend(response.json()[k])` reading one
page: the page-local sequence of every requested key, or `none` as soon as a
key is missing (Python raises `KeyError`). -/
def getFields {α : Type} (fields : List (String × List α)) :
    List String → Option (List (List α))
  | [] => some []
  | k :: ks =>
    match lookupField fields k, getFields fields ks with
    | some v, some vs => some (v :: vs)
    | _, _ => none

/-- How `request_all_pages` can fail on a finite page stream: a `KeyError`
on a missing list field, or the loop demanding a further page beyond the
supplied stream. -/
inductive FetchErr where
  | keyError
  | needMorePages
deriving DecidableEq

/-- The `while next_page_token or number_of_pages == 0` loop of
`VerkadaSession.request_all_pages`, consuming one page response per
iteration.  `acc` is the accumulator `data`, kept as a list parallel to
`keys`; each iteration extends every key's accumulated sequence with that
key's page-local sequence. -/
def fetchLoop {α : Type} (keys : List String) (pages : List (Page α))
    (tok : Option String) (nPages : Nat) (acc : List (List α)) :
    Except FetchErr (List (List α)) :=
  if tokenTruthy tok || nPages == 0 then
    match pages with
    | [] => Except.error FetchErr.needMorePages
    | p :: rest =>
      match getFields p.fields keys with
      | none => Except.error FetchErr.keyError
      | some vals =>
        fetchLoop keys rest p.next_page_token (nPages + 1)
          (List.zipWith (fun a b => a ++ b) acc vals)
  else
    Except.ok acc

/-- `VerkadaSession.request_all_pages(method, url, keys, ...)`, as a function
of the successive page bodies the endpoint would return: `data` starts as
`{k: [] for k in keys}`, `next_page_token` as `None`, `number_of_pages` as 0.
The returned value is the aggregated `data` (what the returned
`MockResponse.json()` yields for the requested keys). -/
def request_all_pages {α : Type} (keys : List String) (pages : List (Page α)) :
    Except FetchErr (List (List α)) :=
  fetchLoop keys pages none 0 (keys.map (fun _ => []))

/-- The per-field exact concatenation, in page order, of the field's
per-page sequences. -/
def concatField {α : Type} (pages : List (Page α)) (k : String) : List α :=
  pages.foldr (fun p r => (lookupField p.fields k).getD [] ++ r) []

/-- Decidable description of a well-formed page chain: nonempty, every page
before the last carries a truthy continuation token, and the last page
carries an empty/absent one. -/
def goodChain {α : Type} : List (Page α) → Bool
  | [] => false
  | [p] => !tokenTruthy p.next_page_token
  | p :: q :: rest => tokenTruthy p.next_page_token && goodChain (q :: rest)

/-- Every requested list field is present on every page. -/
def allFieldsPresent {α : Type} (keys : List String) (pages : List (Page α)) :
    Bool :=
  pages.all (fun p => (getFields p.fields keys).isSome)

/-! ### Helper lemmas about the request loop -/

/-- Once `retries` reaches 0 the loop exits and raises according to
`last_exception` (lines 143-152). -/
theorem requestLoop_zero (m : Nat) (attempts : List Attempt) (l : Option LastExc)
    (s : List Nat) : requestLoop m attempts 0 l s = ⟨exhaustOutcome l, s, 0⟩ := by
  cases attempts with
  | nil => rw [requestLoop]; simp
  | cons a rest => cases a <;> (rw [requestLoop]; simp)

/-- A 2xx response returns immediately, with no sleep and no retry consumed. -/
theorem requestLoop_success (m : Nat) (rest : List Attempt) (r : Nat)
    (l : Option LastExc) (s : List Nat) (status : Nat) (h : r ≠ 0)
    (h2 : 200 ≤ status) (h3 : status < 300) :
    requestLoop m (Attempt.resp status :: rest) r l s
      = ⟨ReqOutcome.success status, s, r⟩ := by
  conv_lhs => rw [requestLoop]
  simp [h, h2, h3]

/-- A 401 response raises `VerkadaTokenExpiredError`, which the loop's own
handler catches and merely logs: the iteration leaves `retries`,
`last_exception` and the sleeps untouched. -/
theorem requestLoop_401 (m : Nat) (rest : List Attempt) (r : Nat)
    (l : Option LastExc) (s : List Nat) (h : r ≠ 0) :
    requestLoop m (Attempt.resp 401 :: rest) r l s = requestLoop m rest r l s := by
  conv_lhs => rw [requestLoop]
  simp [h]

/-- A 429 response sleeps the fixed wait and consumes one retry. -/
theorem requestLoop_429 (m : Nat) (rest : List Attempt) (r : Nat)
    (l : Option LastExc) (s : List Nat) (h : r ≠ 0) :
    requestLoop m (Attempt.resp 429 :: rest) r l s
      = requestLoop m rest (r - 1) l (s ++ [RETRY_WAIT_TIME]) := by
  conv_lhs => rw [requestLoop]
  simp [h]

/-- A status below 400 that is not 2xx, 401, 409 or 429 (i.e. 1xx/3xx, and
also anything below 100) matches no branch: the iteration neither returns,
nor raises, nor changes any loop state. -/
theorem requestLoop_ignored (m : Nat) (rest : List Attempt) (r : Nat)
    (l : Option LastExc) (s : List Nat) (status : Nat) (h : r ≠ 0)
    (hlt : status < 400) (hn2 : ¬(200 ≤ status ∧ status < 300)) :
    requestLoop m (Attempt.resp status :: rest) r l s = requestLoop m rest r l s := by
  conv_lhs => rw [requestLoop]
  have e401 : ¬ status = 401 := by omega
  have e409 : ¬ status = 409 := by omega
  have e429 : ¬ status = 429 := by omega
  have e500 : ¬ 500 ≤ status := by omega
  have e400 : ¬ 400 ≤ status := by omega
  simp [h, hn2, e401, e409, e429, e500, e400]

/-! ### Helper lemmas about page aggregation -/

/-- When every requested key is present, the page read yields exactly the
keys' page-local sequences, in key order. -/
theorem getFields_eq_map {α : Type} (fields : List (String × List α))
    (keys : List String) (h : (getFields fields keys).isSome = true) :
    getFields fields keys
      = some (keys.map (fun k => (lookupField fields k).getD [])) := by
  induction keys with
  | nil => rfl
  | cons k ks ih =>
    rw [getFields] at h ⊢
    cases hv : lookupField fields k with
    | none => simp [hv] at h
    | some v =>
      cases hg : getFields fields ks with
      | none => simp [hv, hg] at h
      | some vs =>
        have h2 : (vs : List (List α))
            = ks.map (fun k => (lookupField fields k).getD []) := by
          have := ih (by simp [hg])
          rw [hg] at this
          exact Option.some_inj.mp this
        simp [hv, hg, h2]

/-- `concatField` unfolds one page at a time. -/
theorem concatField_cons {α : Type} (p : Page α) (ps : List (Page α)) (k : String) :
    concatField (p :: ps) k = (lookupField p.fields k).getD [] ++ concatField ps k := rfl

/-- `concatField` of no pages is empty. -/
theorem concatField_nil {α : Type} (k : String) :
    concatField ([] : List (Page α)) k = [] := rfl

/-- Pointwise `++` on parallel lists is associative. -/
theorem zipWith_append_assoc {α : Type} (a : List (List α)) :
    ∀ (b c : List (List α)),
      List.zipWith (fun x y => x ++ y) (List.zipWith (fun x y => x ++ y) a b) c
        = List.zipWith (fun x y => x ++ y) a (List.zipWith (fun x y => x ++ y) b c) := by
  induction a with
  | nil => intro b c; rfl
  | cons x a ih =>
    intro b c
    cases b with
    | nil => rfl
    | cons y b =>
      cases c with
      | nil => rfl
      | cons z c => simp only [List.zipWith_cons_cons, List.append_assoc, ih b c]

/-- Mapping a pointwise `++` of two functions splits into a `zipWith` of
the two mapped lists. -/
theorem map_append_split {β α : Type} (f g : β → List α) (keys : List β) :
    keys.map (fun k => f k ++ g k)
      = List.zipWith (fun x y => x ++ y) (keys.map f) (keys.map g) := by
  induction keys with
  | nil => rfl
  | cons k ks ih => rw [List.map_cons, List.map_cons, List.map_cons,
      List.zipWith_cons_cons, ih]

/-- Extending an all-empty accumulator is the identity. -/
theorem zipWith_nil_append {β α : Type} (f : β → List α) (keys : List β) :
    List.zipWith (fun a b => a ++ b) (keys.map fun _ => ([] : List α)) (keys.map f)
      = keys.map f := by
  induction keys with
  | nil => rfl
  | cons k ks ih => rw [List.map_cons, List.map_cons, List.zipWith_cons_cons, ih]; rfl

/-- One iteration of the aggregation loop on a page whose fields are all
present: inject the token, read the page, extend every key's accumulated
sequence. -/
theorem fetchLoop_cons_some {α : Type} (keys : List String) (p : Page α)
    (rest : List (Page α)) (tok : Option String) (n : Nat) (acc : List (List α))
    (vals : List (List α)) (htok : (tokenTruthy tok || n == 0) = true)
    (hv : getFields p.fields keys = some vals) :
    fetchLoop keys (p :: rest) tok n acc
      = fetchLoop keys rest p.next_page_token (n + 1)
          (List.zipWith (fun a b => a ++ b) acc vals) := by
  rw [fetchLoop.eq_def, if_pos htok]
  simp only [hv]

/-- The loop exits with the accumulator once the token is falsy after the
first page. -/
theorem fetchLoop_exit {α : Type} (keys : List String) (pages : List (Page α))
    (tok : Option String) (n : Nat) (acc : List (List α))
    (htok : (tokenTruthy tok || n == 0) = false) :
    fetchLoop keys pages tok n acc = Except.ok acc := by
  rw [fetchLoop.eq_def, if_neg (by simp [htok])]

/-- Main aggregation invariant: on a well-formed page chain with all fields
present, the loop returns the accumulator extended by the per-key exact
concatenation of the remaining pages' sequences. -/
theorem fetchLoop_concat {α : Type} (keys : List String) :
    ∀ (pages : List (Page α)) (tok : Option String) (n : Nat) (acc : List (List α)),
      goodChain pages = true →
      allFieldsPresent keys pages = true →
      (tokenTruthy tok || n == 0) = true →
      acc.length = keys.length →
      fetchLoop keys pages tok n acc
        = Except.ok (List.zipWith (fun a b => a ++ b) acc
            (keys.map (fun k => concatField pages k))) := by
  intro pages
  induction pages with
  | nil => intro tok n acc hchain _ _ _; simp [goodChain] at hchain
  | cons p rest ih =>
    intro tok n acc hchain hfields htok hlen
    have hsplit := hfields
    rw [allFieldsPresent, List.all_cons, Bool.and_eq_true] at hsplit
    have hp : (getFields p.fields keys).isSome = true := hsplit.1
    have hrest : allFieldsPresent keys rest = true := hsplit.2
    rw [fetchLoop_cons_some keys p rest tok n acc _ htok
      (getFields_eq_map p.fields keys hp)]
    cases rest with
    | nil =>
      have hlast : tokenTruthy p.next_page_token = false := by
        simp only [goodChain] at hchain
        cases hb : tokenTruthy p.next_page_token with
        | false => rfl
        | true => rw [hb] at hchain; exact absurd hchain (by decide)
      rw [fetchLoop_exit keys [] p.next_page_token (n + 1) _ (by simp [hlast])]
      simp only [concatField_cons, concatField_nil, List.append_nil]
    | cons q rest2 =>
      rw [goodChain, Bool.and_eq_true] at hchain
      rw [ih p.next_page_token (n + 1)
          (List.zipWith (fun a b => a ++ b) acc
            (keys.map (fun k => (lookupField p.fields k).getD [])))
          hchain.2 hrest (by simp [hchain.1]) (by simp [hlen])]
      simp only [concatField_cons]
      rw [map_append_split (fun k => (lookupField p.fields k).getD [])
        (fun k => (lookupField q.fields k).getD [] ++ concatField rest2 k) keys,
        ← zipWith_append_assoc]

/-! ### Claim theorems -/

/-- C1: on every finite sequence of page responses in which each requested
list field is present on every page and only the last page carries an
empty/absent continuation token, `request_all_pages` returns, for each
requested field, the exact concatenation in page order of that field's
per-page sequences (no deduplication, no re-sorting); and the loop, which
runs while the continuation token is truthy or the page count is 0, demands
at least one page response even from an endpoint modelled by an empty
stream. -/
theorem request_all_pages_concat {α : Type} (keys : List String)
    (pages : List (Page α)) (hchain : goodChain pages = true)
    (hfields : allFieldsPresent keys pages = true) :
    request_all_pages keys pages
        = Except.ok (keys.map (fun k => concatField pages k))
    ∧ (∀ keys2 : List String,
        request_all_pages (α := α) keys2 [] = Except.error FetchErr.needMorePages) := by
  constructor
  · rw [request_all_pages,
      fetchLoop_concat keys pages none 0 (keys.map fun _ => []) hchain hfields
        (by rfl) (by simp)]
    rw [zipWith_nil_append]
  · intro keys2
    rw [request_all_pages, fetchLoop.eq_def, if_pos (by rfl)]

/-- C1 witness: the spec's own example, pages `{ids: [1,2]} -> token "T"`
then `{ids: [3]} -> token null`, aggregates to `ids = [1,2,3]`. -/
theorem request_all_pages_concat_witness :
    request_all_pages ["ids"]
        [⟨[("ids", [1, 2])], some "T"⟩, ⟨[("ids", [3])], none⟩]
      = Except.ok [[1, 2, 3]] := by
  have h := (request_all_pages_concat ["ids"]
    [⟨[("ids", [1, 2])], some "T"⟩, ⟨[("ids", [3])], none⟩]
    (by decide) (by decide)).1
  rw [h]
  rfl

/-- C2 (code behaviour at the failing input): a 401 response does not make
`request` propagate `VerkadaTokenExpiredError` to the caller — the loop's
own handler swallows it, so after a 401 the loop is still running with the
full retry budget and no sleeps, and a stream of nothing but 401 responses
never terminates, no matter how long. -/
theorem request_401_swallowed :
    request [Attempt.resp 401] = ⟨ReqOutcome.streamEnded none, [], MAX_RETRIES⟩
    ∧ (∀ n : Nat,
        requestLoop MAX_RETRIES (List.replicate n (Attempt.resp 401)) MAX_RETRIES none []
          = ⟨ReqOutcome.streamEnded none, [], MAX_RETRIES⟩) := by
  refine ⟨by decide, ?_⟩
  intro n
  induction n with
  | zero => decide
  | succ n ih =>
    rw [List.replicate_succ,
      requestLoop_401 MAX_RETRIES (List.replicate n (Attempt.resp 401))
        MAX_RETRIES none [] (by decide)]
    exact ih

/-- C3: when the retry budget is exhausted, `request` raises and never
returns silently: with a recorded transport failure it raises
`VerkadaConnectionError`, with another recorded `RequestException` it
re-raises that error, and with no exception ever raised it raises the
generic connection-exhausted `VerkadaConnectionError`; in particular three
500 responses end in the generic connection-exhausted error, distinct from
the transport case. -/
theorem request_exhausted_raises :
    (∀ (m : Nat) (attempts : List Attempt) (l : Option LastExc) (s : List Nat),
        requestLoop m attempts 0 l s = ⟨exhaustOutcome l, s, 0⟩)
    ∧ exhaustOutcome (some LastExc.connErr) = ReqOutcome.connectionErrorTransport
    ∧ exhaustOutcome (some LastExc.reqErr) = ReqOutcome.raisedReqErr
    ∧ exhaustOutcome none = ReqOutcome.connectionErrorGeneric
    ∧ request (List.replicate 3 (Attempt.resp 500))
        = ⟨ReqOutcome.connectionErrorGeneric, [10, 20], 0⟩
    ∧ request (List.replicate 3 Attempt.connErr)
        = ⟨ReqOutcome.connectionErrorTransport, [10, 20], 0⟩
    ∧ request (List.replicate 3 Attempt.reqErr)
        = ⟨ReqOutcome.raisedReqErr, [10, 20], 0⟩ :=
  ⟨fun m attempts l s => requestLoop_zero m attempts l s,
    rfl, rfl, rfl, by decide, by decide, by decide⟩

/-- C4 counterexample: the persisted-record reader does not fail soft — a
present-but-malformed `token.json` makes `json.load` raise to the caller,
and an absent file triggers a network token refresh rather than yielding
`None`. -/
theorem readToken_counterexample :
    readToken TokenFile.malformed 0 = ReadTokenResult.raised
    ∧ readToken TokenFile.absent 0 = ReadTokenResult.refreshed
    ∧ ReadTokenResult.raised ≠ ReadTokenResult.refreshed := by decide

/-- C4 (amended): `_readToken` refreshes on an absent file, raises on
malformed JSON, raises on a record without a `timestamp` field (`None < int`
is a `TypeError`), refreshes on a stale timestamp, and otherwise loads the
stored fields without raising. -/
theorem readToken_cases (now : Int) :
    readToken TokenFile.absent now = ReadTokenResult.refreshed
    ∧ readToken TokenFile.malformed now = ReadTokenResult.raised
    ∧ (∀ tok : Option String,
        readToken (TokenFile.record tok none) now = ReadTokenResult.raised)
    ∧ (∀ (tok : Option String) (t : Int), isExpired t now = true →
        readToken (TokenFile.record tok (some t)) now = ReadTokenResult.refreshed)
    ∧ (∀ (tok : Option String) (t : Int), isExpired t now = false →
        readToken (TokenFile.record tok (some t)) now = ReadTokenResult.loaded tok t) := by
  refine ⟨rfl, rfl, fun tok => rfl, fun tok t h => ?_, fun tok t h => ?_⟩ <;>
    simp [readToken, h]

/-- C4 witness: concrete stale and fresh records at `now = 2000`. -/
theorem readToken_cases_witness :
    readToken (TokenFile.record (some "t") (some 0)) 2000 = ReadTokenResult.refreshed
    ∧ readToken (TokenFile.record (some "t") (some 1000)) 2000
        = ReadTokenResult.loaded (some "t") 1000 := by
  have h := readToken_cases 2000
  exact ⟨h.2.2.2.1 (some "t") 0 (by decide), h.2.2.2.2 (some "t") 1000 (by decide)⟩

/-- C5 counterexample: at the exact 25-minute boundary the claim's
classification disagrees with the code — with `issuedAt = 0` and
`now = 1500` we have `now - issuedAt >= 25*60`, so the claim calls the
credential expired, yet the check `timestamp < now - 25*60` yields false. -/
theorem isExpired_boundary_counterexample :
    (1500 : Int) - 0 ≥ 25 * 60 ∧ isExpired 0 1500 = false := by decide

/-- C5 (amended): the check treats the credential as valid if and only if
`now - issuedAt <= 25*60` seconds, i.e. it is classified expired exactly
when `now - issuedAt` strictly exceeds 25 minutes; in particular it is
expired at `issuedAt = now - 26*60` and not expired at
`issuedAt = now - 24*60`. -/
theorem isExpired_iff (timestamp now : Int) :
    (isExpired timestamp now = true ↔ now - timestamp > 25 * 60)
    ∧ isExpired (now - 26 * 60) now = true
    ∧ isExpired (now - 24 * 60) now = false := by
  refine ⟨?_, ?_, ?_⟩
  all_goals simp [isExpired, DEFAULT_TOKEN_EXPIRATION_TIME]
  all_goals omega

/-- C6 counterexample: a 2xx token-endpoint body without a `token` field
makes the parse step fail with a `KeyError`, which is not the
authentication-error kind. -/
theorem refreshTokenParse_counterexample :
    refreshTokenParse [("message", "ok")] = Except.error RefreshErr.keyError
    ∧ RefreshErr.keyError ≠ RefreshErr.authError :=
  ⟨rfl, by decide⟩

/-- C6 (amended): on every successful response body lacking the `token`
field, `_refreshToken` fails with an uncaught `KeyError` from
`res.json()['token']`, not with `VerkadaAuthenticationError`. -/
theorem refreshTokenParse_missing_token (body : List (String × String))
    (h : lookupStr body "token" = none) :
    refreshTokenParse body = Except.error RefreshErr.keyError := by
  rw [refreshTokenParse, h]

/-- C6 witness: the empty body has no `token` field. -/
theorem refreshTokenParse_missing_token_witness :
    refreshTokenParse [] = Except.error RefreshErr.keyError :=
  refreshTokenParse_missing_token [] (by rfl)

/-- C7: a 409 response makes the executor raise the authentication error
immediately: whatever attempts could follow are never issued, the sleep
sequence is unchanged, and the retry budget is not consumed. -/
theorem request_409_fail_fast :
    ∀ (m : Nat) (rest : List Attempt) (r : Nat) (l : Option LastExc) (s : List Nat),
      0 < r →
      requestLoop m (Attempt.resp 409 :: rest) r l s = ⟨ReqOutcome.authError, s, r⟩ := by
  intro m rest r l s h
  conv_lhs => rw [requestLoop]
  simp [Nat.pos_iff_ne_zero.mp h]

/-- C7 witness: a 409 on the first attempt of a fresh call. -/
theorem request_409_fail_fast_witness :
    requestLoop MAX_RETRIES [Attempt.resp 409] MAX_RETRIES none []
      = ⟨ReqOutcome.authError, [], MAX_RETRIES⟩ :=
  request_409_fail_fast MAX_RETRIES [] MAX_RETRIES none [] (by decide)

/-- C8: a 429 on the first attempt followed by any 2xx on the second makes
`request` return that successful response after exactly one fixed
rate-limit wait of `RETRY_WAIT_TIME = 10` seconds and exactly one consumed
retry, raising nothing. -/
theorem request_429_then_success :
    ∀ (status : Nat) (rest : List Attempt), 200 ≤ status → status < 300 →
      request (Attempt.resp 429 :: Attempt.resp status :: rest)
        = ⟨ReqOutcome.success status, [RETRY_WAIT_TIME], MAX_RETRIES - 1⟩ := by
  intro status rest h2 h3
  rw [request,
    requestLoop_429 MAX_RETRIES (Attempt.resp status :: rest) MAX_RETRIES none []
      (by decide),
    requestLoop_success MAX_RETRIES rest (MAX_RETRIES - 1) none
      ([] ++ [RETRY_WAIT_TIME]) status (by decide) h2 h3]
  rfl

/-- C8 witness: 429 then 200. -/
theorem request_429_then_success_witness :
    request [Attempt.resp 429, Attempt.resp 200]
      = ⟨ReqOutcome.success 200, [RETRY_WAIT_TIME], MAX_RETRIES - 1⟩ :=
  request_429_then_success 200 [] (by decide) (by decide)

/-- C9: `clean_params` returns exactly the sub-mapping of entries whose
values are not `None`, in order and with values unchanged (mapping each
kept entry back under `some` recovers precisely the `isSome` filter of the
input), and on the spec's example it keeps exactly `end_time = 5`. -/
theorem clean_params_exact :
    (∀ (V : Type) (params : List (String × Option V)),
        (clean_params params).map (fun kv => (kv.1, some kv.2))
          = params.filter (fun kv => kv.2.isSome))
    ∧ clean_params [("start_time", (none : Option Int)), ("end_time", some 5),
        ("page_size", none)] = [("end_time", 5)] := by
  constructor
  · intro V params
    induction params with
    | nil => rfl
    | cons kv rest ih =>
      obtain ⟨k, ov⟩ := kv
      cases ov with
      | none => simpa [clean_params, List.filterMap_cons, List.filter_cons]
          using ih
      | some v => simpa [clean_params, List.filterMap_cons, List.filter_cons]
          using ih
  · rfl

/-- C10: a response whose status is informational (1xx) or a redirect (3xx)
matches no branch of the classification: the iteration neither returns, nor
raises, nor decrements the retry counter; consequently a stream of nothing
but such responses leaves the loop running forever, its state unchanged
after any number of attempts. -/
theorem request_unclassified_status_loops :
    (∀ (m : Nat) (rest : List Attempt) (r : Nat) (l : Option LastExc)
        (s : List Nat) (status : Nat), 0 < r →
        ((100 ≤ status ∧ status < 200) ∨ (300 ≤ status ∧ status < 400)) →
        requestLoop m (Attempt.resp status :: rest) r l s = requestLoop m rest r l s)
    ∧ (∀ (n status : Nat),
        ((100 ≤ status ∧ status < 200) ∨ (300 ≤ status ∧ status < 400)) →
        requestLoop MAX_RETRIES (List.replicate n (Attempt.resp status)) MAX_RETRIES none []
          = ⟨ReqOutcome.streamEnded none, [], MAX_RETRIES⟩) := by
  have step : ∀ (m : Nat) (rest : List Attempt) (r : Nat) (l : Option LastExc)
      (s : List Nat) (status : Nat), 0 < r →
      ((100 ≤ status ∧ status < 200) ∨ (300 ≤ status ∧ status < 400)) →
      requestLoop m (Attempt.resp status :: rest) r l s = requestLoop m rest r l s := by
    intro m rest r l s status h hs
    exact requestLoop_ignored m rest r l s status (Nat.pos_iff_ne_zero.mp h)
      (by omega) (by omega)
  refine ⟨step, ?_⟩
  intro n status hs
  induction n with
  | zero => rw [List.replicate_zero]; decide
  | succ n ih =>
    rw [List.replicate_succ,
      step MAX_RETRIES (List.replicate n (Attempt.resp status)) MAX_RETRIES none []
        status (by decide) hs]
    exact ih

/-- C10 witness: a 302 is ignored by one iteration, and five successive 150
responses leave the loop state untouched. -/
theorem request_unclassified_status_loops_witness :
    requestLoop MAX_RETRIES [Attempt.resp 302] MAX_RETRIES none []
        = requestLoop MAX_RETRIES [] MAX_RETRIES none []
    ∧ requestLoop MAX_RETRIES (List.replicate 5 (Attempt.resp 150)) MAX_RETRIES none []
        = ⟨ReqOutcome.streamEnded none, [], MAX_RETRIES⟩ := by
  have h := request_unclassified_status_loops
  exact ⟨h.1 MAX_RETRIES [] MAX_RETRIES none [] 302 (by decide) (by decide),
    h.2 5 150 (by decide)⟩

end Verkada
